import Mathlib

/-!
# sound-to-security: the click handler of `MainComponent`

A shallow embedding of `MainComponent::buttonClicked`
(`vocal-passwords/Source/MainComponent.cpp`) and of the part of the GUI toolkit's
interface the handler calls.  The handler is the only function of the component
with behaviour of its own: it posts a fixed JSON body to a local backend and
writes the outcome into a label.

The toolkit is not part of the repository.  Its data-carrying pieces (the
stream options builder, the variant value, the label) are modelled as plain
data; the pieces that do real work (opening the connection, parsing JSON,
formatting numbers) are parameters of the handler, gathered in `Env`, so every
theorem holds for every backend and every parser.
-/

namespace juce

/-- Modelled from the spec: the toolkit pointer type `juce::Button*`, declared
outside the repository; the address it holds. -/
abbrev ButtonPtr := Nat

/-- Modelled from the spec: the toolkit enumeration
`juce::URL::ParameterHandling`, declared outside the repository; where the
request parameters travel. -/
inductive ParameterHandling where
  | inAddress
  | inPostData
  deriving DecidableEq, Repr

/-- Modelled from the spec: the toolkit type `juce::URL`, declared outside the
repository; the address the object was built from. -/
structure URL where
  address : String
  deriving DecidableEq, Repr

/-- Modelled from the spec: the toolkit type `juce::URL::InputStreamOptions`,
declared outside the repository; the request settings the handler sets
(parameter handling, extra headers, connection timeout, body). -/
structure InputStreamOptions where
  parameterHandling : ParameterHandling
  extraHeaders : String
  connectionTimeoutMs : Int
  body : String
  deriving DecidableEq, Repr

namespace InputStreamOptions

/-- Modelled from the spec: the toolkit constructor
`InputStreamOptions (ParameterHandling)`; every other setting starts empty. -/
def create (handling : ParameterHandling) : InputStreamOptions :=
  ⟨handling, "", 0, ""⟩

/-- Modelled from the spec: the toolkit builder `withExtraHeaders`; a copy with
the headers replaced. -/
def withExtraHeaders (o : InputStreamOptions) (headers : String) : InputStreamOptions :=
  ⟨o.parameterHandling, headers, o.connectionTimeoutMs, o.body⟩

/-- Modelled from the spec: the toolkit builder `withConnectionTimeoutMs`; a
copy with the timeout replaced. -/
def withConnectionTimeoutMs (o : InputStreamOptions) (timeout : Int) : InputStreamOptions :=
  ⟨o.parameterHandling, o.extraHeaders, timeout, o.body⟩

/-- Modelled from the spec: the builder `withBody` the handler calls, declared
outside the repository; a copy with the request body replaced. -/
def withBody (o : InputStreamOptions) (payload : String) : InputStreamOptions :=
  ⟨o.parameterHandling, o.extraHeaders, o.connectionTimeoutMs, payload⟩

end InputStreamOptions

/-- Modelled from the spec: the toolkit type `juce::InputStream`, declared
outside the repository; an open stream, with the text the whole stream holds. -/
structure InputStream where
  readEntireStreamAsString : String
  deriving DecidableEq, Repr

/-- Modelled from the spec: the toolkit type `juce::var`, declared outside the
repository; the variant value a JSON parse returns.  `void` is
the empty variant (JSON `null`, a failed parse, an absent property); a `double`
carries its 64-bit pattern; an `object` carries the named values of its
`DynamicObject` in order. -/
inductive var where
  | void
  | int (value : Int)
  | int64 (value : Int)
  | bool (value : Bool)
  | double (bits : Nat)
  | string (value : String)
  | array (items : List var)
  | object (properties : List (String × var))

namespace var

/-- Modelled from the spec: the toolkit test `var::isObject`; true for an
object only. -/
def isObject : var → Bool
  | object _ => true
  | _ => false

/-- Modelled from the spec: the toolkit lookup of a name in the named values of
an object; the value stored under the name, the empty variant when there is
none. -/
def lookupProperty (name : String) : List (String × var) → var
  | [] => void
  | (key, value) :: rest => if key = name then value else lookupProperty name rest

/-- Modelled from the spec: the toolkit subscript
`var::operator[] (const char*)`; the named property of an object, the empty
variant for anything that is not an object. -/
def index (v : var) (propertyName : String) : var :=
  match v with
  | object properties => lookupProperty propertyName properties
  | _ => void

/-- Modelled from the spec: the toolkit conversion `var::operator String`.  A
string converts to itself and the empty variant to the empty string; the text
of every other value comes from the toolkit's formatting routines, the
parameter `describe`. -/
def toString (describe : var → String) : var → String
  | void => ""
  | string value => value
  | other => describe other

end var

/-- Modelled from the spec: the toolkit type `juce::TextButton`, declared
outside the repository; the address of the object. -/
structure TextButton where
  address : ButtonPtr
  deriving DecidableEq, Repr

/-- Modelled from the spec: the toolkit type `juce::Label`, declared outside
the repository; the text shown. -/
structure Label where
  text : String
  deriving DecidableEq, Repr

/-- Modelled from the spec: the toolkit call
`Label::setText (newText, dontSendNotification)`; the text shown is replaced. -/
def Label.setText (_label : Label) (newText : String) : Label :=
  ⟨newText⟩

end juce

open juce

/-- What the handler reaches outside the component: the backend behind
`URL::createInputStream` (no stream when the connection fails), the parser
`JSON::parse`, and the formatting of non-string variants. -/
structure Env where
  createInputStream : URL → InputStreamOptions → Option InputStream
  parse : String → var
  describe : var → String

/-- One call the handler makes on the toolkit, in program order. -/
inductive Event where
  | createInputStream (url : URL) (options : InputStreamOptions)
  | readEntireStreamAsString
  | parse (text : String)
  | setText (newText : String)
  deriving DecidableEq, Repr

/-- The state of `MainComponent`: its two member widgets. -/
structure MainComponent where
  generateButton : TextButton
  passwordLabel : Label
  deriving DecidableEq, Repr

namespace MainComponent

/-- The handler `MainComponent::buttonClicked`: the component after the call
and the toolkit calls made, in order. -/
def buttonClicked (env : Env) (self : MainComponent) (button : ButtonPtr) :
    MainComponent × List Event :=
  if button = self.generateButton.address then
    let backendURL : URL := ⟨"http://127.0.0.1:5000/generate-vocal-password"⟩
    let jsonPayload : String := "\x7b\"vocal_input\": \"test_input\"\x7d"
    let options := InputStreamOptions.create ParameterHandling.inPostData
    let options := options.withExtraHeaders "Content-Type: application/json"
    let options := options.withConnectionTimeoutMs 5000
    let options := options.withBody jsonPayload
    match env.createInputStream backendURL options with
    | some stream =>
      let response := stream.readEntireStreamAsString
      let parsedResponse := env.parse response
      if parsedResponse.isObject then
        let password := (parsedResponse.index "generated_password").toString env.describe
        let text := "Generated Password: " ++ password
        ({ self with passwordLabel := self.passwordLabel.setText text },
          [Event.createInputStream backendURL options, Event.readEntireStreamAsString,
           Event.parse response, Event.setText text])
      else
        let text := "Error parsing server response"
        ({ self with passwordLabel := self.passwordLabel.setText text },
          [Event.createInputStream backendURL options, Event.readEntireStreamAsString,
           Event.parse response, Event.setText text])
    | none =>
      let text := "Error connecting to backend"
      ({ self with passwordLabel := self.passwordLabel.setText text },
        [Event.createInputStream backendURL options, Event.setText text])
  else
    (self, [])

end MainComponent

/-- The result of the one connection the handler opens: the stream the backend
gives for the generate request, or none. -/
def connectionResult (env : Env) : Option InputStream :=
  env.createInputStream ⟨"http://127.0.0.1:5000/generate-vocal-password"⟩
    ⟨ParameterHandling.inPostData, "Content-Type: application/json", 5000,
      "\x7b\"vocal_input\": \"test_input\"\x7d"⟩

/-- The label text after a click on the generate button. -/
def labelAfterClick (env : Env) (self : MainComponent) : String :=
  (self.buttonClicked env self.generateButton.address).1.passwordLabel.text

/-- The toolkit calls made by a click on the generate button. -/
def traceOfClick (env : Env) (self : MainComponent) : List Event :=
  (self.buttonClicked env self.generateButton.address).2

/-- The connection attempts recorded in a trace, in order. -/
def connectionAttempts : List Event → List (URL × InputStreamOptions)
  | [] => []
  | Event.createInputStream url options :: rest => (url, options) :: connectionAttempts rest
  | _ :: rest => connectionAttempts rest

/-- The request bodies handed to the connection in a trace, in order. -/
def requestBodies (trace : List Event) : List String :=
  (connectionAttempts trace).map fun attempt => attempt.2.body

/-- A run of clicks on the generate button, one backend per click, first to last. -/
def generateClicks : List Env → MainComponent → MainComponent
  | [], self => self
  | env :: rest, self =>
    generateClicks rest (self.buttonClicked env self.generateButton.address).1

/-- A backend that answers every request with the given body. -/
def respondingWith (body : String) : URL → InputStreamOptions → Option InputStream :=
  fun _ _ => some ⟨body⟩

/-- A backend that refuses every connection. -/
def refusing : URL → InputStreamOptions → Option InputStream :=
  fun _ _ => none

/-- A sample parser for the example bodies: it knows three texts, and returns
the empty variant for every other one as a failed parse does. -/
def sampleParse (text : String) : var :=
  if text = "\x7b\"generated_password\": \"abc123\"\x7d" then
    var.object [("generated_password", var.string "abc123")]
  else if text = "\x7b\x7d" then
    var.object []
  else if text = "[1, 2]" then
    var.array [var.int 1, var.int 2]
  else if text = "\x7b\"generated_password\": 42, \"ok\": true\x7d" then
    var.object [("generated_password", var.int 42), ("ok", var.bool true)]
  else
    var.void

/-- A sample formatting of non-string variants. -/
def sampleDescribe : var → String
  | var.int value => ToString.toString value
  | var.int64 value => ToString.toString value
  | var.bool true => "1"
  | var.bool false => "0"
  | _ => ""

/-- A sample component: the generate button at address 1, an earlier text shown. -/
def sampleComponent : MainComponent :=
  ⟨⟨1⟩, ⟨"Generated Password: earlier"⟩⟩

/-- A sample environment: the given backend with the sample parser and formatting. -/
def sampleEnv (backend : URL → InputStreamOptions → Option InputStream) : Env :=
  ⟨backend, sampleParse, sampleDescribe⟩

/-- A backend that answers the generate request with the given body and refuses
every other request. -/
def answeringGenerateOnly (body : String) : URL → InputStreamOptions → Option InputStream :=
  fun url _ =>
    if url.address = "http://127.0.0.1:5000/generate-vocal-password" then some ⟨body⟩ else none

/-! ## Helper lemmas -/

theorem lookupProperty_of_mem (name : String) (value : var) :
    ∀ properties : List (String × var), (properties.map Prod.fst).Nodup →
      (name, value) ∈ properties → var.lookupProperty name properties = value
  | [], _, hmem => by cases hmem
  | (key, first) :: rest, hnodup, hmem => by
    rw [List.map_cons, List.nodup_cons] at hnodup
    by_cases hkey : key = name
    · rcases List.mem_cons.mp hmem with heq | hrest
      · have hfirst : first = value := by
          have := congrArg Prod.snd heq
          exact this.symm
        simp [var.lookupProperty, hkey, hfirst]
      · exfalso
        apply hnodup.1
        rw [hkey]
        exact List.mem_map.mpr ⟨(name, value), hrest, rfl⟩
    · rcases List.mem_cons.mp hmem with heq | hrest
      · exfalso
        apply hkey
        have := congrArg Prod.fst heq
        exact this.symm
      · simp only [var.lookupProperty, if_neg hkey]
        exact lookupProperty_of_mem name value rest hnodup.2 hrest

theorem lookupProperty_of_absent (name : String) :
    ∀ properties : List (String × var), (∀ value, (name, value) ∉ properties) →
      var.lookupProperty name properties = var.void
  | [], _ => rfl
  | (key, first) :: rest, habsent => by
    have hkey : key ≠ name := by
      intro heq
      apply habsent first
      rw [heq]
      exact List.mem_cons_self _ _
    simp only [var.lookupProperty, if_neg hkey]
    apply lookupProperty_of_absent name rest
    intro value hmem
    exact habsent value (List.mem_cons_of_mem _ hmem)

theorem generated_ne_parse_error (tail : String) :
    "Generated Password: " ++ tail ≠ "Error parsing server response" := by
  intro h
  cases tail with
  | mk chars =>
    have := congrArg (fun s : String => s.data.head?) h
    simp at this

theorem labelAfterClick_of_none (env : Env) (self : MainComponent)
    (hconn : connectionResult env = none) :
    labelAfterClick env self = "Error connecting to backend" := by
  unfold connectionResult at hconn
  simp [labelAfterClick, MainComponent.buttonClicked, InputStreamOptions.create,
    InputStreamOptions.withExtraHeaders, InputStreamOptions.withConnectionTimeoutMs,
    InputStreamOptions.withBody, hconn, Label.setText]

theorem labelAfterClick_of_object (env : Env) (self : MainComponent) (stream : InputStream)
    (properties : List (String × var))
    (hconn : connectionResult env = some stream)
    (hparse : env.parse stream.readEntireStreamAsString = var.object properties) :
    labelAfterClick env self = "Generated Password: " ++
      (var.lookupProperty "generated_password" properties).toString env.describe := by
  unfold connectionResult at hconn
  simp [labelAfterClick, MainComponent.buttonClicked, InputStreamOptions.create,
    InputStreamOptions.withExtraHeaders, InputStreamOptions.withConnectionTimeoutMs,
    InputStreamOptions.withBody, hconn, hparse, Label.setText, var.isObject, var.index]

theorem labelAfterClick_of_not_object (env : Env) (self : MainComponent) (stream : InputStream)
    (hconn : connectionResult env = some stream)
    (hparse : (env.parse stream.readEntireStreamAsString).isObject = false) :
    labelAfterClick env self = "Error parsing server response" := by
  unfold connectionResult at hconn
  simp [labelAfterClick, MainComponent.buttonClicked, InputStreamOptions.create,
    InputStreamOptions.withExtraHeaders, InputStreamOptions.withConnectionTimeoutMs,
    InputStreamOptions.withBody, hconn, hparse, Label.setText]

theorem labelAfterClick_eq (env : Env) (self : MainComponent) :
    labelAfterClick env self =
      match connectionResult env with
      | none => "Error connecting to backend"
      | some stream =>
        if (env.parse stream.readEntireStreamAsString).isObject then
          "Generated Password: " ++
            ((env.parse stream.readEntireStreamAsString).index "generated_password").toString
              env.describe
        else "Error parsing server response" := by
  cases hconn : connectionResult env with
  | none => exact labelAfterClick_of_none env self hconn
  | some stream =>
    cases hobj : (env.parse stream.readEntireStreamAsString).isObject with
    | false =>
      rw [labelAfterClick_of_not_object env self stream hconn hobj]
      simp [hobj]
    | true =>
      cases hparse : env.parse stream.readEntireStreamAsString with
      | object properties =>
        rw [labelAfterClick_of_object env self stream properties hconn hparse]
        simp [hparse, var.isObject, var.index]
      | _ => simp [hparse, var.isObject] at hobj

theorem connectionAttempts_traceOfClick (env : Env) (self : MainComponent) :
    connectionAttempts (traceOfClick env self) =
      [(⟨"http://127.0.0.1:5000/generate-vocal-password"⟩,
        ⟨ParameterHandling.inPostData, "Content-Type: application/json", 5000,
          "\x7b\"vocal_input\": \"test_input\"\x7d"⟩)] := by
  simp only [traceOfClick, MainComponent.buttonClicked, InputStreamOptions.create,
    InputStreamOptions.withExtraHeaders, InputStreamOptions.withConnectionTimeoutMs,
    InputStreamOptions.withBody, if_true]
  split
  · split <;> rfl
  · rfl

theorem buttonClicked_of_none (env : Env) (self : MainComponent)
    (hconn : connectionResult env = none) :
    self.buttonClicked env self.generateButton.address =
      (⟨self.generateButton, ⟨"Error connecting to backend"⟩⟩,
        [Event.createInputStream ⟨"http://127.0.0.1:5000/generate-vocal-password"⟩
          ⟨ParameterHandling.inPostData, "Content-Type: application/json", 5000,
            "\x7b\"vocal_input\": \"test_input\"\x7d"⟩,
         Event.setText "Error connecting to backend"]) := by
  unfold connectionResult at hconn
  simp [MainComponent.buttonClicked, InputStreamOptions.create,
    InputStreamOptions.withExtraHeaders, InputStreamOptions.withConnectionTimeoutMs,
    InputStreamOptions.withBody, hconn, Label.setText]

theorem isObject_eq_false_of_ne (v : var) (hne : ∀ properties, v ≠ var.object properties) :
    v.isObject = false := by
  cases v with
  | object properties => exact absurd rfl (hne properties)
  | _ => rfl

theorem generateClicks_append_singleton (env : Env) :
    ∀ (earlier : List Env) (self : MainComponent),
      (generateClicks (earlier ++ [env]) self).passwordLabel.text =
        labelAfterClick env (generateClicks earlier self)
  | [], _ => rfl
  | first :: rest, self => by
    simp only [List.cons_append, generateClicks]
    exact generateClicks_append_singleton env rest _

/-! ## The click handler's contract -/

/-- C1: when the connection succeeds and the response body parses to a JSON
object whose field `generated_password` is the string `v`, a click on the
generate button sets the label text to exactly `Generated Password: ` followed
by `v`. -/
theorem C1_generated_password_displayed (env : Env) (self : MainComponent)
    (stream : InputStream) (properties : List (String × var)) (v : String)
    (hconn : connectionResult env = some stream)
    (hparse : env.parse stream.readEntireStreamAsString = var.object properties)
    (hnames : (properties.map Prod.fst).Nodup)
    (hfield : ("generated_password", var.string v) ∈ properties) :
    (self.buttonClicked env self.generateButton.address).1.passwordLabel.text =
      "Generated Password: " ++ v := by
  have h := labelAfterClick_of_object env self stream properties hconn hparse
  rw [lookupProperty_of_mem "generated_password" (var.string v) properties hnames hfield] at h
  exact h

/-- Witness of C1: the body with `generated_password` equal to `abc123` gives
the label `Generated Password: abc123`. -/
theorem C1_generated_password_displayed_witness :
    connectionResult (sampleEnv (respondingWith "\x7b\"generated_password\": \"abc123\"\x7d")) =
        some ⟨"\x7b\"generated_password\": \"abc123\"\x7d"⟩ ∧
      sampleParse "\x7b\"generated_password\": \"abc123\"\x7d" =
        var.object [("generated_password", var.string "abc123")] ∧
      ([("generated_password", var.string "abc123")].map Prod.fst).Nodup ∧
      ("generated_password", var.string "abc123") ∈
        [("generated_password", var.string "abc123")] ∧
      (sampleComponent.buttonClicked
          (sampleEnv (respondingWith "\x7b\"generated_password\": \"abc123\"\x7d"))
          sampleComponent.generateButton.address).1.passwordLabel.text =
        "Generated Password: abc123" :=
  ⟨rfl, rfl, by decide, List.mem_cons_self _ _,
    C1_generated_password_displayed
      (sampleEnv (respondingWith "\x7b\"generated_password\": \"abc123\"\x7d")) sampleComponent
      ⟨"\x7b\"generated_password\": \"abc123\"\x7d"⟩
      [("generated_password", var.string "abc123")] "abc123" rfl rfl (by decide)
      (List.mem_cons_self _ _)⟩

/-- C2: when the connection cannot be established, a click on the generate
button sets the label text to exactly `Error connecting to backend`, makes no
read and no parse call, and gives the same result under every backend, parser
and formatting for which the connection fails. -/
theorem C2_connection_failure (env : Env) (self : MainComponent)
    (hconn : connectionResult env = none) :
    (self.buttonClicked env self.generateButton.address).1.passwordLabel.text =
        "Error connecting to backend" ∧
      Event.readEntireStreamAsString ∉ (self.buttonClicked env self.generateButton.address).2 ∧
      (∀ text, Event.parse text ∉ (self.buttonClicked env self.generateButton.address).2) ∧
      ∀ other : Env, connectionResult other = none →
        self.buttonClicked other self.generateButton.address =
          self.buttonClicked env self.generateButton.address := by
  rw [buttonClicked_of_none env self hconn]
  refine ⟨rfl, by simp, by simp, ?_⟩
  intro other hother
  exact buttonClicked_of_none other self hother

/-- Witness of C2: a backend that refuses the connection. -/
theorem C2_connection_failure_witness :
    connectionResult (sampleEnv refusing) = none ∧
      (sampleComponent.buttonClicked (sampleEnv refusing)
          sampleComponent.generateButton.address).1.passwordLabel.text =
        "Error connecting to backend" :=
  ⟨rfl, (C2_connection_failure (sampleEnv refusing) sampleComponent rfl).1⟩

/-- C3: when the connection succeeds and the response body does not parse to a
JSON object, a click on the generate button sets the label text to exactly
`Error parsing server response`. -/
theorem C3_non_object_response (env : Env) (self : MainComponent) (stream : InputStream)
    (hconn : connectionResult env = some stream)
    (hparse : ∀ properties, env.parse stream.readEntireStreamAsString ≠ var.object properties) :
    (self.buttonClicked env self.generateButton.address).1.passwordLabel.text =
      "Error parsing server response" :=
  labelAfterClick_of_not_object env self stream hconn (isObject_eq_false_of_ne _ hparse)

/-- Witness of C3: a body that parses to a JSON array. -/
theorem C3_non_object_response_witness :
    connectionResult (sampleEnv (respondingWith "[1, 2]")) = some ⟨"[1, 2]"⟩ ∧
      (∀ properties, sampleParse "[1, 2]" ≠ var.object properties) ∧
      (sampleComponent.buttonClicked (sampleEnv (respondingWith "[1, 2]"))
          sampleComponent.generateButton.address).1.passwordLabel.text =
        "Error parsing server response" :=
  ⟨rfl, fun _ h => var.noConfusion h,
    C3_non_object_response (sampleEnv (respondingWith "[1, 2]")) sampleComponent ⟨"[1, 2]"⟩ rfl
      (fun _ h => var.noConfusion h)⟩

/-- C4: when the connection succeeds and the response parses to a JSON object
with no `generated_password` field, a click on the generate button sets the
label text to exactly `Generated Password: ` with nothing appended, which is
not the parse error text. -/
theorem C4_missing_field (env : Env) (self : MainComponent) (stream : InputStream)
    (properties : List (String × var))
    (hconn : connectionResult env = some stream)
    (hparse : env.parse stream.readEntireStreamAsString = var.object properties)
    (habsent : ∀ value, ("generated_password", value) ∉ properties) :
    (self.buttonClicked env self.generateButton.address).1.passwordLabel.text =
        "Generated Password: " ∧
      (self.buttonClicked env self.generateButton.address).1.passwordLabel.text ≠
        "Error parsing server response" := by
  have h := labelAfterClick_of_object env self stream properties hconn hparse
  rw [lookupProperty_of_absent "generated_password" properties habsent] at h
  unfold labelAfterClick at h
  rw [h]
  exact ⟨rfl, generated_ne_parse_error _⟩

/-- Witness of C4: the body `{}`. -/
theorem C4_missing_field_witness :
    connectionResult (sampleEnv (respondingWith "\x7b\x7d")) = some ⟨"\x7b\x7d"⟩ ∧
      sampleParse "\x7b\x7d" = var.object [] ∧
      (∀ value, ("generated_password", value) ∉ ([] : List (String × var))) ∧
      (sampleComponent.buttonClicked (sampleEnv (respondingWith "\x7b\x7d"))
          sampleComponent.generateButton.address).1.passwordLabel.text =
        "Generated Password: " :=
  ⟨rfl, rfl, fun _ h => List.not_mem_nil _ h,
    (C4_missing_field (sampleEnv (respondingWith "\x7b\x7d")) sampleComponent ⟨"\x7b\x7d"⟩ []
      rfl rfl (fun _ h => List.not_mem_nil _ h)).1⟩

/-- C5: on every click on the generate button the one request body handed to
the connection is the literal `{"vocal_input": "test_input"}`, and two clicks
from any two component states under any two backends hand over the same body. -/
theorem C5_request_body_constant (env₁ env₂ : Env) (self₁ self₂ : MainComponent) :
    requestBodies (self₁.buttonClicked env₁ self₁.generateButton.address).2 =
        ["\x7b\"vocal_input\": \"test_input\"\x7d"] ∧
      requestBodies (self₂.buttonClicked env₂ self₂.generateButton.address).2 =
        requestBodies (self₁.buttonClicked env₁ self₁.generateButton.address).2 := by
  have h₁ := connectionAttempts_traceOfClick env₁ self₁
  have h₂ := connectionAttempts_traceOfClick env₂ self₂
  unfold traceOfClick at h₁ h₂
  unfold requestBodies
  rw [h₁, h₂]
  exact ⟨rfl, rfl⟩

/-- C6: every click on the generate button makes exactly one connection
attempt; it targets `http://127.0.0.1:5000/generate-vocal-password`, sends its
parameters as POST data, carries the extra header
`Content-Type: application/json`, has a connection timeout of 5000 ms and the
fixed body, all at once. -/
theorem C6_single_post_request (env : Env) (self : MainComponent) :
    ∃ url options,
      connectionAttempts (self.buttonClicked env self.generateButton.address).2 =
        [(url, options)] ∧
      url.address = "http://127.0.0.1:5000/generate-vocal-password" ∧
      options.parameterHandling = ParameterHandling.inPostData ∧
      options.extraHeaders = "Content-Type: application/json" ∧
      options.connectionTimeoutMs = 5000 ∧
      options.body = "\x7b\"vocal_input\": \"test_input\"\x7d" :=
  ⟨_, _, connectionAttempts_traceOfClick env self, rfl, rfl, rfl, rfl, rfl⟩

/-- C7: for every backend outcome, parser and prior state, a click on the
generate button returns a component whose label text is
`Error connecting to backend`, `Error parsing server response`, or
`Generated Password: ` followed by some string. -/
theorem C7_three_label_forms (env : Env) (self : MainComponent) :
    (self.buttonClicked env self.generateButton.address).1.passwordLabel.text =
        "Error connecting to backend" ∨
      (self.buttonClicked env self.generateButton.address).1.passwordLabel.text =
        "Error parsing server response" ∨
      ∃ password : String,
        (self.buttonClicked env self.generateButton.address).1.passwordLabel.text =
          "Generated Password: " ++ password := by
  have h := labelAfterClick_eq env self
  unfold labelAfterClick at h
  rw [h]
  cases connectionResult env with
  | none => exact Or.inl rfl
  | some stream =>
    cases hobj : (env.parse stream.readEntireStreamAsString).isObject with
    | false => exact Or.inr (Or.inl (if_neg (ne_true_of_eq_false hobj)))
    | true => exact Or.inr (Or.inr ⟨_, if_pos hobj⟩)

/-- C8: when the connection succeeds and the response parses to a JSON object,
whatever its fields are, the label text after a click on the generate button
starts with `Generated Password: ` and is not `Error parsing server response`. -/
theorem C8_object_is_only_check (env : Env) (self : MainComponent) (stream : InputStream)
    (properties : List (String × var))
    (hconn : connectionResult env = some stream)
    (hparse : env.parse stream.readEntireStreamAsString = var.object properties) :
    (∃ tail : String,
        (self.buttonClicked env self.generateButton.address).1.passwordLabel.text =
          "Generated Password: " ++ tail) ∧
      (self.buttonClicked env self.generateButton.address).1.passwordLabel.text ≠
        "Error parsing server response" := by
  have h := labelAfterClick_of_object env self stream properties hconn hparse
  unfold labelAfterClick at h
  rw [h]
  exact ⟨⟨_, rfl⟩, generated_ne_parse_error _⟩

/-- Witness of C8: an object whose `generated_password` is a number, next to
another field. -/
theorem C8_object_is_only_check_witness :
    connectionResult (sampleEnv (respondingWith
        "\x7b\"generated_password\": 42, \"ok\": true\x7d")) =
        some ⟨"\x7b\"generated_password\": 42, \"ok\": true\x7d"⟩ ∧
      sampleParse "\x7b\"generated_password\": 42, \"ok\": true\x7d" =
        var.object [("generated_password", var.int 42), ("ok", var.bool true)] ∧
      ((∃ tail : String,
          (sampleComponent.buttonClicked
              (sampleEnv (respondingWith "\x7b\"generated_password\": 42, \"ok\": true\x7d"))
              sampleComponent.generateButton.address).1.passwordLabel.text =
            "Generated Password: " ++ tail) ∧
        (sampleComponent.buttonClicked
            (sampleEnv (respondingWith "\x7b\"generated_password\": 42, \"ok\": true\x7d"))
            sampleComponent.generateButton.address).1.passwordLabel.text ≠
          "Error parsing server response") :=
  ⟨rfl, rfl,
    C8_object_is_only_check
      (sampleEnv (respondingWith "\x7b\"generated_password\": 42, \"ok\": true\x7d"))
      sampleComponent ⟨"\x7b\"generated_password\": 42, \"ok\": true\x7d"⟩
      [("generated_password", var.int 42), ("ok", var.bool true)] rfl rfl⟩

/-- C9: called with a button other than the generate button, the handler leaves
the component, and so the label text, as it was and makes no toolkit call, so
no connection attempt. -/
theorem C9_other_button_noop (env : Env) (self : MainComponent) (button : ButtonPtr)
    (hother : button ≠ self.generateButton.address) :
    self.buttonClicked env button = (self, []) ∧
      (self.buttonClicked env button).1.passwordLabel.text = self.passwordLabel.text ∧
      connectionAttempts (self.buttonClicked env button).2 = [] := by
  have h : self.buttonClicked env button = (self, []) := by
    simp [MainComponent.buttonClicked, hother]
  rw [h]
  exact ⟨rfl, rfl, rfl⟩

/-- Witness of C9: a click on a button at another address, with a backend that
would answer. -/
theorem C9_other_button_noop_witness :
    (2 : ButtonPtr) ≠ sampleComponent.generateButton.address ∧
      sampleComponent.buttonClicked
          (sampleEnv (respondingWith "\x7b\"generated_password\": \"abc123\"\x7d")) 2 =
        (sampleComponent, []) :=
  ⟨by decide,
    (C9_other_button_noop
      (sampleEnv (respondingWith "\x7b\"generated_password\": \"abc123\"\x7d"))
      sampleComponent 2 (by decide)).1⟩

/-- C10: two clicks on the generate button with the same connection result,
parser and formatting leave the same label text whatever the two prior states
were, and after any run of earlier clicks the label shows the last click's
result alone. -/
theorem C10_label_depends_on_outcome_only (env₁ env₂ : Env) (self₁ self₂ : MainComponent)
    (hconn : connectionResult env₁ = connectionResult env₂)
    (hparse : env₁.parse = env₂.parse) (hdescribe : env₁.describe = env₂.describe) :
    (self₁.buttonClicked env₁ self₁.generateButton.address).1.passwordLabel.text =
        (self₂.buttonClicked env₂ self₂.generateButton.address).1.passwordLabel.text ∧
      ∀ earlier : List Env,
        (generateClicks (earlier ++ [env₁]) self₁).passwordLabel.text =
          (self₂.buttonClicked env₂ self₂.generateButton.address).1.passwordLabel.text := by
  have key : ∀ a b : MainComponent, labelAfterClick env₁ a = labelAfterClick env₂ b := by
    intro a b
    rw [labelAfterClick_eq env₁ a, labelAfterClick_eq env₂ b, hconn, hparse, hdescribe]
  refine ⟨key self₁ self₂, ?_⟩
  intro earlier
  rw [generateClicks_append_singleton env₁ earlier self₁]
  exact key _ self₂

/-- Witness of C10: two backends that agree on the generate request, two
components showing different texts. -/
theorem C10_label_depends_on_outcome_only_witness :
    connectionResult (sampleEnv (respondingWith "\x7b\x7d")) =
        connectionResult (sampleEnv (answeringGenerateOnly "\x7b\x7d")) ∧
      (sampleComponent.buttonClicked (sampleEnv (respondingWith "\x7b\x7d"))
          sampleComponent.generateButton.address).1.passwordLabel.text =
        ((⟨⟨7⟩, ⟨"Error connecting to backend"⟩⟩ : MainComponent).buttonClicked
          (sampleEnv (answeringGenerateOnly "\x7b\x7d")) 7).1.passwordLabel.text :=
  ⟨rfl,
    (C10_label_depends_on_outcome_only (sampleEnv (respondingWith "\x7b\x7d"))
      (sampleEnv (answeringGenerateOnly "\x7b\x7d")) sampleComponent
      ⟨⟨7⟩, ⟨"Error connecting to backend"⟩⟩ rfl rfl rfl).1⟩
